import Mathlib

/-!
Shallow embedding of `src/update-data.py` (GEISHA-Image-Search).

The script is a single linear batch job: it reads a checkpoint date, downloads
metadata for images created since then, filters out images that are already in
the persisted dataset or missing on disk, runs two models over the remaining
images, appends the results to the persisted dataset, and finally advances the
checkpoint and appends a log line.

The embedding models the job as a pure function `runScript` from an
environment (command-line arguments, the fetched metadata, the set of files on
disk, the two models as oracle functions, whether the dataset write succeeds,
and the current date) and a file state (checkpoint file, pickled dataset, log
file, temporary-download directory and file) to a run result: the file state
after the run, the run's outcome (normal completion or the exception that
aborted it), and the list of observable effects in order.

External library calls are modelled by their documented semantics:
`np.setdiff1d(ar1, ar2)` returns the sorted unique values of `ar1` that are
not in `ar2` (NumPy sorts strings lexicographically by code point, which the
relation `strLe` below implements on `String.data`), and `urllib.request.urlretrieve`
writes the downloaded payload to the given local path.
-/

namespace GeishaUpdate

/-- Boolean lexicographic comparison of character lists by code point; this is
the order NumPy uses when sorting an array of strings. -/
def strLeB : List Char → List Char → Bool
  | [], _ => true
  | _ :: _, [] => false
  | a :: as, b :: bs =>
    if a.toNat < b.toNat then true
    else if b.toNat < a.toNat then false
    else strLeB as bs

/-- Lexicographic order on strings by code point, as a proposition. -/
def strLe (a b : String) : Prop := strLeB a.data b.data = true

instance : DecidableRel strLe := fun a b =>
  inferInstanceAs (Decidable (strLeB a.data b.data = true))

/-- One row of the metadata CSV fetched from the GEISHA server: parsed with
column names `fname`, `stage`, `locations`. -/
structure MetaRecord where
  fname : String
  stage : String
  locations : String
deriving DecidableEq

/-- Contents of the pickled dataset `database-image-predictions.pkl`: a
3-tuple of image filenames, stage predictions and locations predictions.
The prediction types are parameters `P` and `Q` because the claims only
concern their counts, never the tensor values. -/
structure Dataset (P Q : Type) where
  filenames : List String
  stages : List P
  locations : List Q
deriving DecidableEq

/-- The on-disk state the script can modify: the `last-updated` checkpoint
file, the pickled dataset, the `data-updates-log` lines, whether the
`temporary-downloads` directory exists, and the content of
`temporary-downloads/new_images.csv` (`none` when the file is absent). -/
structure FileState (P Q : Type) where
  lastUpdated : String
  dataset : Dataset P Q
  updatesLog : List String
  tempDirExists : Bool
  tempCsv : Option (List MetaRecord)
deriving DecidableEq

/-- The run's environment: `argv` (including the script name at position 0),
the result of the metadata fetch (`none` models a network error), the set of
paths that exist on local disk, the two pretrained models as oracle functions
from the filtered filename list to their prediction lists, whether the pickle
write succeeds, and today's date already formatted as `%m/%d/%y`. -/
structure Env (P Q : Type) where
  argv : List String
  fetch : Option (List MetaRecord)
  disk : List String
  stageModel : List String → List P
  locationsModel : List String → List Q
  saveOk : Bool
  today : String

/-- Observable effects of a run, in program order. -/
inductive Event where
  | mkdirTempDir
  | fetchedMetadata
  | loadedModels
  | ranInference
  | savedDataset
  | wroteCheckpoint
  | wroteLog
deriving DecidableEq

/-- How a run ends: a successful update of `n` images, the successful
"Data already up to date" exit, or the uncaught exception that ended it
(missing CLI argument, unbound `image_home_dir` name, fetch failure, a failed
length assert, or a failed dataset write). -/
inductive Outcome where
  | updated (n : Nat)
  | upToDate
  | errMissingArg
  | errNameError
  | errFetch
  | errAssert
  | errSave
deriving DecidableEq

/-- Result of one invocation: final file state, outcome, and effect trace. -/
structure RunResult (P Q : Type) where
  state : FileState P Q
  outcome : Outcome
  events : List Event

/-- Filenames column of the fetched metadata (`new_image_metadata.fname.values`). -/
def newImageFnames (metadata : List MetaRecord) : List String :=
  metadata.map MetaRecord.fname

/-- The filter loop: collect every fetched filename that is already saved in
the dataset or whose file `image_home_dir + fname` does not exist on disk. -/
def imagesToRemove (newFnames dbFilenames : List String) (imageHomeDir : String)
    (disk : List String) : List String :=
  newFnames.filter fun fname =>
    decide (fname ∈ dbFilenames) || !decide ((imageHomeDir ++ fname) ∈ disk)

/-- Model of `np.setdiff1d ar1 ar2`: the sorted unique values of `ar1` that
are not in `ar2`. -/
def setdiff1d (ar1 ar2 : List String) : List String :=
  List.insertionSort strLe ((ar1.filter fun x => !decide (x ∈ ar2)).dedup)

/-- The whole filter step: `np.setdiff1d(new_image_fnames, images_to_remove)`
applied to the fetched filenames. -/
def filterNewImages (metadata : List MetaRecord) (dbFilenames : List String)
    (imageHomeDir : String) (disk : List String) : List String :=
  setdiff1d (newImageFnames metadata)
    (imagesToRemove (newImageFnames metadata) dbFilenames imageHomeDir disk)

/-- The in-memory merge: append the new filenames and both prediction lists
to the three existing parallel sequences. -/
def mergeDataset {P Q : Type} (db : Dataset P Q) (newFnames : List String)
    (sp : List P) (lp : List Q) : Dataset P Q :=
  ⟨db.filenames ++ newFnames, db.stages ++ sp, db.locations ++ lp⟩

/-- The log line appended to `data-updates-log` for a non-empty update. -/
def logLine (today : String) (newFnames : List String) : String :=
  today ++ ": Added " ++ toString newFnames.length ++ " images (" ++
    String.intercalate " " newFnames ++ ")"

/-- The non-empty branch of the script (`if len(new_image_fnames) > 0`): load
both models, run inference, append to the in-memory arrays, check the two
length asserts, then write the pickle, the checkpoint and the log line in this
order. A failed assert or a failed pickle write aborts with the files written
so far. -/
def runNonEmptyBranch {P Q : Type} (env : Env P Q) (st2 : FileState P Q)
    (newFnames : List String) : RunResult P Q :=
  let sp := env.stageModel newFnames
  let lp := env.locationsModel newFnames
  let evs := [Event.mkdirTempDir, Event.fetchedMetadata, Event.loadedModels,
    Event.ranInference]
  if newFnames.length = sp.length then
    if sp.length = lp.length then
      if env.saveOk then
        ⟨⟨env.today, mergeDataset st2.dataset newFnames sp lp,
            st2.updatesLog ++ [logLine env.today newFnames],
            st2.tempDirExists, st2.tempCsv⟩,
          Outcome.updated newFnames.length,
          evs ++ [Event.savedDataset, Event.wroteCheckpoint, Event.wroteLog]⟩
      else ⟨st2, Outcome.errSave, evs⟩
    else ⟨st2, Outcome.errAssert, evs⟩
  else ⟨st2, Outcome.errAssert, evs⟩

/-- One invocation of `update-data.py`. Control flow mirrors the script:
raise `TypeError` when `len(sys.argv) == 1`; bind `image_home_dir` only when
`len(sys.argv) == 2` (any other argv length leaves it unbound, a slip in the
source's `if/elif`); create `temporary-downloads`; download and parse the
metadata; filter; then either run the non-empty branch or print
"Data already up to date". When `image_home_dir` is unbound the filter loop
raises `NameError` at its first iteration, which only happens when the
fetched filename list is non-empty. -/
def runScript {P Q : Type} (env : Env P Q) (st : FileState P Q) : RunResult P Q :=
  if env.argv.length = 1 then
    ⟨st, Outcome.errMissingArg, []⟩
  else
    match env.fetch with
    | none =>
      ⟨⟨st.lastUpdated, st.dataset, st.updatesLog, true, st.tempCsv⟩,
        Outcome.errFetch, [Event.mkdirTempDir]⟩
    | some metadata =>
      let st2 : FileState P Q :=
        ⟨st.lastUpdated, st.dataset, st.updatesLog, true, some metadata⟩
      if env.argv.length = 2 then
        let imageHomeDir := env.argv.getD 1 ""
        let newFnames :=
          filterNewImages metadata st2.dataset.filenames imageHomeDir env.disk
        if 0 < newFnames.length then
          runNonEmptyBranch env st2 newFnames
        else
          ⟨st2, Outcome.upToDate, [Event.mkdirTempDir, Event.fetchedMetadata]⟩
      else
        if (newImageFnames metadata).isEmpty then
          ⟨st2, Outcome.upToDate, [Event.mkdirTempDir, Event.fetchedMetadata]⟩
        else
          ⟨st2, Outcome.errNameError, [Event.mkdirTempDir, Event.fetchedMetadata]⟩

/-- The metadata rows this run fetched (empty when the fetch failed). -/
def fetchedMetadataOf {P Q : Type} (env : Env P Q) : List MetaRecord :=
  env.fetch.getD []

/-- The filtered new-image list of a run: the fetched filenames that are
neither already saved nor missing on disk, deduplicated and sorted. -/
def newImagesOf {P Q : Type} (env : Env P Q) (st : FileState P Q) : List String :=
  filterNewImages (fetchedMetadataOf env) st.dataset.filenames
    (env.argv.getD 1 "") env.disk

/-- A model oracle that returns one (dummy) prediction per input image, used
to instantiate the prediction types with `Nat` in concrete runs. -/
def constModel (l : List String) : List Nat :=
  l.map fun _ => 0

/-- A model oracle that returns no predictions at all, used to exhibit a
prediction-count mismatch in concrete runs. -/
def emptyModel (_ : List String) : List Nat :=
  []

/-- Metadata rows of the spec's worked scenario: fetched filenames
`["b.jpg", "c.jpg", "d.jpg"]`. -/
def scenarioMetadata : List MetaRecord :=
  [⟨"b.jpg", "15", "limb"⟩, ⟨"c.jpg", "16", "somite"⟩, ⟨"d.jpg", "17", "eye"⟩]

/-- Pre-state of the spec's worked scenario: dataset `["a.jpg", "b.jpg"]` with
one prediction pair per filename. -/
def scenarioState : FileState Nat Nat :=
  ⟨"01/01/24", ⟨["a.jpg", "b.jpg"], [0, 0], [0, 0]⟩, ["old line"], true, none⟩

/-- Environment of the spec's worked scenario: one positional argument
`/images/`, the three fetched rows above, and only `c.jpg` present on disk. -/
def scenarioEnv : Env Nat Nat :=
  ⟨["update-data.py", "/images/"], some scenarioMetadata, ["/images/c.jpg"],
    constModel, constModel, true, "06/01/24"⟩

/-- Environment whose metadata fetch fails with a network error. -/
def fetchFailEnv : Env Nat Nat :=
  ⟨["update-data.py", "/images/"], none, ["/images/c.jpg"],
    constModel, constModel, true, "06/01/24"⟩

/-- Environment identical to the scenario but whose stage model returns no
predictions, exhibiting a length-assert failure. -/
def mismatchEnv : Env Nat Nat :=
  ⟨["update-data.py", "/images/"], some scenarioMetadata, ["/images/c.jpg"],
    emptyModel, constModel, true, "06/01/24"⟩

/-- Environment identical to the scenario but with one extra command-line
argument after the image directory. -/
def extraArgsEnv : Env Nat Nat :=
  ⟨["update-data.py", "/images/", "extra"], some scenarioMetadata,
    ["/images/c.jpg"], constModel, constModel, true, "06/01/24"⟩

/-- Environment whose fetch returns an empty metadata table. -/
def emptyFetchEnv : Env Nat Nat :=
  ⟨["update-data.py", "/images/"], some [], ["/images/c.jpg"],
    constModel, constModel, true, "06/01/24"⟩

/-- Metadata with the row for `c.jpg` repeated, as the fetch may return. -/
def dupMetadata : List MetaRecord :=
  [⟨"c.jpg", "16", "somite"⟩, ⟨"d.jpg", "17", "eye"⟩, ⟨"c.jpg", "16", "somite"⟩]

/-- The same rows as `dupMetadata`, fetched in a different order. -/
def dupMetadataShuffled : List MetaRecord :=
  [⟨"d.jpg", "17", "eye"⟩, ⟨"c.jpg", "16", "somite"⟩, ⟨"c.jpg", "16", "somite"⟩]

/-- Totality of the code-point comparison on character lists. -/
theorem strLeB_total (as bs : List Char) : strLeB as bs = true ∨ strLeB bs as = true := by
  induction as generalizing bs with
  | nil => left; rfl
  | cons a as ih =>
    cases bs with
    | nil => right; rfl
    | cons b bs =>
      by_cases h1 : a.toNat < b.toNat
      · left; simp [strLeB, h1]
      · by_cases h2 : b.toNat < a.toNat
        · right; simp [strLeB, h2]
        · rcases ih bs with h | h
          · left; simp [strLeB, h1, h2, h]
          · right; simp [strLeB, h1, h2, h]

/-- Transitivity of the code-point comparison on character lists. -/
theorem strLeB_trans (as bs cs : List Char) (h1 : strLeB as bs = true)
    (h2 : strLeB bs cs = true) : strLeB as cs = true := by
  induction as generalizing bs cs with
  | nil => rfl
  | cons a as ih =>
    cases bs with
    | nil => exact absurd h1 (by simp [strLeB])
    | cons b bs =>
      cases cs with
      | nil => exact absurd h2 (by simp [strLeB])
      | cons c cs =>
        simp only [strLeB] at h1 h2 ⊢
        by_cases g1 : a.toNat < b.toNat
        · by_cases g2 : b.toNat < c.toNat
          · simp [show a.toNat < c.toNat by omega]
          · by_cases g3 : c.toNat < b.toNat
            · simp [g2, g3] at h2
            · simp [show a.toNat < c.toNat by omega]
        · by_cases g2 : b.toNat < a.toNat
          · simp [g1, g2] at h1
          · by_cases g3 : b.toNat < c.toNat
            · simp [show a.toNat < c.toNat by omega]
            · by_cases g4 : c.toNat < b.toNat
              · simp [g3, g4] at h2
              · have h1' : strLeB as bs = true := by simpa [g1, g2] using h1
                have h2' : strLeB bs cs = true := by simpa [g3, g4] using h2
                simp [show ¬ a.toNat < c.toNat by omega,
                  show ¬ c.toNat < a.toNat by omega, ih bs cs h1' h2']

/-- Antisymmetry of the code-point comparison on character lists. -/
theorem strLeB_antisymm (as bs : List Char) (h1 : strLeB as bs = true)
    (h2 : strLeB bs as = true) : as = bs := by
  induction as generalizing bs with
  | nil =>
    cases bs with
    | nil => rfl
    | cons b bs => exact absurd h2 (by simp [strLeB])
  | cons a as ih =>
    cases bs with
    | nil => exact absurd h1 (by simp [strLeB])
    | cons b bs =>
      simp only [strLeB] at h1 h2
      by_cases g1 : a.toNat < b.toNat
      · simp [show ¬ b.toNat < a.toNat by omega, g1] at h2
      · by_cases g2 : b.toNat < a.toNat
        · simp [g1, g2] at h1
        · have hnat : a.toNat = b.toNat := by omega
          have hab : a = b := Char.ext (UInt32.ext hnat)
          have h1' : strLeB as bs = true := by simpa [g1, g2] using h1
          have h2' : strLeB bs as = true := by simpa [g2, g1] using h2
          rw [hab, ih bs h1' h2']

instance : IsTotal String strLe :=
  ⟨fun a b => strLeB_total a.data b.data⟩

instance : IsTrans String strLe :=
  ⟨fun a b c h1 h2 => strLeB_trans a.data b.data c.data h1 h2⟩

instance : IsAntisymm String strLe :=
  ⟨fun a b h1 h2 => String.ext (strLeB_antisymm a.data b.data h1 h2)⟩

/-- Membership in the model of `np.setdiff1d`. -/
theorem mem_setdiff1d {ar1 ar2 : List String} {x : String} :
    x ∈ setdiff1d ar1 ar2 ↔ x ∈ ar1 ∧ x ∉ ar2 := by
  unfold setdiff1d
  rw [(List.perm_insertionSort strLe _).mem_iff]
  simp [List.mem_dedup, List.mem_filter]

/-- The model of `np.setdiff1d` returns a duplicate-free list. -/
theorem setdiff1d_nodup (ar1 ar2 : List String) : (setdiff1d ar1 ar2).Nodup :=
  (List.perm_insertionSort strLe _).nodup_iff.mpr (List.nodup_dedup _)

/-- The model of `np.setdiff1d` returns a list sorted by code point. -/
theorem setdiff1d_sorted (ar1 ar2 : List String) :
    List.Sorted strLe (setdiff1d ar1 ar2) :=
  List.sorted_insertionSort strLe _

/-- Membership in the removal list built by the filter loop. -/
theorem mem_imagesToRemove {newFnames dbFilenames : List String}
    {imageHomeDir : String} {disk : List String} {f : String} :
    f ∈ imagesToRemove newFnames dbFilenames imageHomeDir disk ↔
      f ∈ newFnames ∧ (f ∈ dbFilenames ∨ (imageHomeDir ++ f) ∉ disk) := by
  simp [imagesToRemove, List.mem_filter]

/-- Membership in the filtered new-image list: a filename survives the filter
step exactly when it was fetched, is not already saved, and its file exists. -/
theorem mem_filterNewImages {metadata : List MetaRecord} {dbFilenames : List String}
    {imageHomeDir : String} {disk : List String} {f : String} :
    f ∈ filterNewImages metadata dbFilenames imageHomeDir disk ↔
      f ∈ newImageFnames metadata ∧ f ∉ dbFilenames ∧ (imageHomeDir ++ f) ∈ disk := by
  unfold filterNewImages
  rw [mem_setdiff1d, mem_imagesToRemove]
  tauto

/-- Fetching no filenames filters down to no new images. -/
theorem filterNewImages_eq_nil {metadata : List MetaRecord}
    {dbFilenames : List String} {imageHomeDir : String} {disk : List String}
    (h : newImageFnames metadata = []) :
    filterNewImages metadata dbFilenames imageHomeDir disk = [] := by
  unfold filterNewImages setdiff1d
  rw [h]
  rfl

/-- Characterization of a run that ends in a successful non-empty update: the
length asserts passed, the persisted dataset is the merged one, the checkpoint
holds today's date and the log gained exactly one line. -/
theorem runScript_updated_spec {P Q : Type} (env : Env P Q) (st : FileState P Q) (n : Nat) :
    (runScript env st).outcome = Outcome.updated n →
      n = (newImagesOf env st).length ∧
      (newImagesOf env st).length = (env.stageModel (newImagesOf env st)).length ∧
      (env.stageModel (newImagesOf env st)).length =
        (env.locationsModel (newImagesOf env st)).length ∧
      (runScript env st).state.dataset = mergeDataset st.dataset (newImagesOf env st)
        (env.stageModel (newImagesOf env st)) (env.locationsModel (newImagesOf env st)) ∧
      (runScript env st).state.lastUpdated = env.today ∧
      (runScript env st).state.updatesLog =
        st.updatesLog ++ [logLine env.today (newImagesOf env st)] := by
  simp only [runScript, runNonEmptyBranch]
  split
  · simp
  · split
    · simp
    · next metadata heq =>
      have hmeta : newImagesOf env st =
          filterNewImages metadata st.dataset.filenames (env.argv.getD 1 "") env.disk := by
        simp [newImagesOf, fetchedMetadataOf, heq]
      split
      · split
        · split
          · split
            · split
              · intro h
                simp only [Outcome.updated.injEq] at h
                subst h
                simp_all [mergeDataset]
              · simp
            · simp
          · simp
        · simp
      · split
        · simp
        · simp

/-- Characterization of any run that does not end in a successful update: the
persisted dataset, the checkpoint and the log are unchanged on disk. -/
theorem runScript_not_updated_spec {P Q : Type} (env : Env P Q) (st : FileState P Q) :
    (∀ n, (runScript env st).outcome ≠ Outcome.updated n) →
      (runScript env st).state.dataset = st.dataset ∧
      (runScript env st).state.lastUpdated = st.lastUpdated ∧
      (runScript env st).state.updatesLog = st.updatesLog := by
  simp only [runScript, runNonEmptyBranch]
  split
  · simp
  · split
    · simp
    · split
      · split
        · split
          · split
            · split
              · intro h
                exact absurd rfl (h _)
              · simp
            · simp
          · simp
        · simp
      · split
        · simp
        · simp

/-- Characterization of a run whose filtered new-image list is empty: no model
is loaded, no inference runs, no dataset write happens, and the persisted
dataset, checkpoint and log are unchanged. -/
theorem runScript_empty_filter_spec {P Q : Type} (env : Env P Q) (st : FileState P Q) :
    newImagesOf env st = [] →
      (runScript env st).state.dataset = st.dataset ∧
      (runScript env st).state.lastUpdated = st.lastUpdated ∧
      (runScript env st).state.updatesLog = st.updatesLog ∧
      Event.loadedModels ∉ (runScript env st).events ∧
      Event.ranInference ∉ (runScript env st).events ∧
      Event.savedDataset ∉ (runScript env st).events := by
  simp only [runScript, runNonEmptyBranch]
  split
  · simp
  · split
    · simp
    · next metadata heq =>
      have hmeta : newImagesOf env st =
          filterNewImages metadata st.dataset.filenames (env.argv.getD 1 "") env.disk := by
        simp [newImagesOf, fetchedMetadataOf, heq]
      split
      · split
        · next h0 =>
          intro h
          rw [hmeta] at h
          rw [h] at h0
          simp at h0
        · simp
      · split
        · simp
        · simp

/-- Every run's event trace is one of five prefixes of the full trace; in
particular the checkpoint and log writes happen only in the trace where the
dataset write already happened before them. -/
theorem runScript_events_spec {P Q : Type} (env : Env P Q) (st : FileState P Q) :
    (runScript env st).events = [] ∨
    (runScript env st).events = [Event.mkdirTempDir] ∨
    (runScript env st).events = [Event.mkdirTempDir, Event.fetchedMetadata] ∨
    (runScript env st).events = [Event.mkdirTempDir, Event.fetchedMetadata,
      Event.loadedModels, Event.ranInference] ∨
    (runScript env st).events = [Event.mkdirTempDir, Event.fetchedMetadata,
      Event.loadedModels, Event.ranInference, Event.savedDataset,
      Event.wroteCheckpoint, Event.wroteLog] := by
  simp only [runScript, runNonEmptyBranch]
  split
  · simp
  · split
    · simp
    · split
      · split
        · split
          · split
            · split
              · simp
              · simp
            · simp
          · simp
        · simp
      · split
        · simp
        · simp

/-- C1: for every successful non-empty update run, after the run the three
persisted sequences satisfy `len(filenames) == len(stage_predictions) ==
len(location_predictions)`, and this common length equals the pre-update
length plus the number of newly accepted (filtered) images. -/
theorem update_preserves_length_invariant {P Q : Type} (env : Env P Q)
    (st : FileState P Q) (n : Nat)
    (hpre1 : st.dataset.stages.length = st.dataset.filenames.length)
    (hpre2 : st.dataset.locations.length = st.dataset.filenames.length)
    (hrun : (runScript env st).outcome = Outcome.updated n) :
    n = (newImagesOf env st).length ∧
    (runScript env st).state.dataset.filenames.length =
      st.dataset.filenames.length + n ∧
    (runScript env st).state.dataset.stages.length =
      (runScript env st).state.dataset.filenames.length ∧
    (runScript env st).state.dataset.locations.length =
      (runScript env st).state.dataset.filenames.length := by
  obtain ⟨hn, hsp, hlp, hds, -, -⟩ := runScript_updated_spec env st n hrun
  refine ⟨hn, ?_, ?_, ?_⟩ <;> simp [hds, mergeDataset] <;> omega

/-- C1 witness: in the worked scenario (one accepted image `c.jpg`), the
three sequences go from length 2 to common length 3. -/
theorem update_preserves_length_invariant_witness :
    1 = (newImagesOf scenarioEnv scenarioState).length ∧
    (runScript scenarioEnv scenarioState).state.dataset.filenames.length =
      scenarioState.dataset.filenames.length + 1 ∧
    (runScript scenarioEnv scenarioState).state.dataset.stages.length =
      (runScript scenarioEnv scenarioState).state.dataset.filenames.length ∧
    (runScript scenarioEnv scenarioState).state.dataset.locations.length =
      (runScript scenarioEnv scenarioState).state.dataset.filenames.length :=
  update_preserves_length_invariant scenarioEnv scenarioState 1
    (by decide) (by decide) (by decide)

/-- C2: a filename already present in the persisted dataset before the run
appears exactly once in the persisted dataset after the run, even when the
fetched metadata contains a record for that filename. -/
theorem existing_filename_appears_once_after_run {P Q : Type} (env : Env P Q)
    (st : FileState P Q) (f : String)
    (hnd : st.dataset.filenames.Nodup) (hf : f ∈ st.dataset.filenames) :
    ((runScript env st).state.dataset.filenames).count f = 1 := by
  by_cases hex : ∃ n, (runScript env st).outcome = Outcome.updated n
  · obtain ⟨n, hn⟩ := hex
    obtain ⟨-, -, -, hds, -, -⟩ := runScript_updated_spec env st n hn
    have hnot : f ∉ newImagesOf env st := by
      intro hmem
      simp only [newImagesOf] at hmem
      rw [mem_filterNewImages] at hmem
      exact hmem.2.1 hf
    simp [hds, mergeDataset, List.count_append,
      List.count_eq_one_of_mem hnd hf, List.count_eq_zero.mpr hnot]
  · push_neg at hex
    obtain ⟨hds, -, -⟩ := runScript_not_updated_spec env st hex
    rw [hds]
    exact List.count_eq_one_of_mem hnd hf

/-- C2 witness: in the worked scenario, where the metadata repeats the saved
filename `b.jpg`, that filename still appears exactly once after the run. -/
theorem existing_filename_appears_once_after_run_witness :
    ((runScript scenarioEnv scenarioState).state.dataset.filenames).count "b.jpg" = 1 :=
  existing_filename_appears_once_after_run scenarioEnv scenarioState "b.jpg"
    (by decide) (by decide)

/-- C3: the filter outputs exactly the filenames that are not already in the
existing dataset and whose file exists under the given directory; in the
spec's worked scenario (dataset `a.jpg, b.jpg`, fetched `b.jpg, c.jpg, d.jpg`,
only `c.jpg` on disk) the filtered set is `[c.jpg]` and the run appends
exactly one filename and one prediction pair. -/
theorem filter_selects_new_on_disk_and_scenario :
    (∀ (metadata : List MetaRecord) (dbFilenames : List String)
        (imageHomeDir : String) (disk : List String) (f : String),
      f ∈ filterNewImages metadata dbFilenames imageHomeDir disk ↔
        f ∈ newImageFnames metadata ∧ f ∉ dbFilenames ∧
          (imageHomeDir ++ f) ∈ disk) ∧
    filterNewImages scenarioMetadata ["a.jpg", "b.jpg"] "/images/"
      ["/images/c.jpg"] = ["c.jpg"] ∧
    (runScript scenarioEnv scenarioState).state.dataset.filenames =
      ["a.jpg", "b.jpg", "c.jpg"] ∧
    (runScript scenarioEnv scenarioState).state.dataset.stages.length = 3 ∧
    (runScript scenarioEnv scenarioState).state.dataset.locations.length = 3 ∧
    (runScript scenarioEnv scenarioState).outcome = Outcome.updated 1 :=
  ⟨fun _ _ _ _ _ => mem_filterNewImages, by decide, by decide, by decide,
    by decide, by decide⟩

/-- C4: a run whose filtered new-image set is empty loads no model, runs no
inference, writes nothing to the persisted dataset, and leaves the persisted
dataset, checkpoint, and update log unchanged. -/
theorem empty_filter_run_is_noop {P Q : Type} (env : Env P Q) (st : FileState P Q)
    (h : newImagesOf env st = []) :
    Event.loadedModels ∉ (runScript env st).events ∧
    Event.ranInference ∉ (runScript env st).events ∧
    Event.savedDataset ∉ (runScript env st).events ∧
    (runScript env st).state.dataset = st.dataset ∧
    (runScript env st).state.lastUpdated = st.lastUpdated ∧
    (runScript env st).state.updatesLog = st.updatesLog := by
  obtain ⟨h1, h2, h3, h4, h5, h6⟩ := runScript_empty_filter_spec env st h
  exact ⟨h4, h5, h6, h1, h2, h3⟩

/-- C4 witness: a run whose fetch returns an empty table filters to no new
images and changes none of the three persisted files. -/
theorem empty_filter_run_is_noop_witness :
    Event.loadedModels ∉ (runScript emptyFetchEnv scenarioState).events ∧
    Event.ranInference ∉ (runScript emptyFetchEnv scenarioState).events ∧
    Event.savedDataset ∉ (runScript emptyFetchEnv scenarioState).events ∧
    (runScript emptyFetchEnv scenarioState).state.dataset = scenarioState.dataset ∧
    (runScript emptyFetchEnv scenarioState).state.lastUpdated = scenarioState.lastUpdated ∧
    (runScript emptyFetchEnv scenarioState).state.updatesLog = scenarioState.updatesLog :=
  empty_filter_run_is_noop emptyFetchEnv scenarioState (by decide)

/-- C5: if a run aborts at or before the dataset write (missing argument,
unbound name, fetch error, assert failure, or dataset write failure), the
checkpoint and the log are left unchanged; moreover in every run the
checkpoint write and the log write can only occur after the dataset write. -/
theorem abort_leaves_checkpoint_and_log_unchanged {P Q : Type} (env : Env P Q)
    (st : FileState P Q)
    (h : (runScript env st).outcome = Outcome.errMissingArg ∨
         (runScript env st).outcome = Outcome.errNameError ∨
         (runScript env st).outcome = Outcome.errFetch ∨
         (runScript env st).outcome = Outcome.errAssert ∨
         (runScript env st).outcome = Outcome.errSave) :
    (runScript env st).state.lastUpdated = st.lastUpdated ∧
    (runScript env st).state.updatesLog = st.updatesLog ∧
    (Event.wroteCheckpoint ∈ (runScript env st).events →
      Event.savedDataset ∈ (runScript env st).events) ∧
    (Event.wroteLog ∈ (runScript env st).events →
      Event.savedDataset ∈ (runScript env st).events) := by
  have hno : ∀ n, (runScript env st).outcome ≠ Outcome.updated n := by
    intro n hn
    rcases h with h | h | h | h | h <;> rw [h] at hn <;> cases hn
  obtain ⟨-, h2, h3⟩ := runScript_not_updated_spec env st hno
  refine ⟨h2, h3, ?_, ?_⟩ <;>
    rcases runScript_events_spec env st with he | he | he | he | he <;>
      rw [he] <;> intro hm <;> simp_all

/-- C5 witness: a run whose metadata fetch fails leaves the checkpoint and
the log unchanged. -/
theorem abort_leaves_checkpoint_and_log_unchanged_witness :
    (runScript fetchFailEnv scenarioState).state.lastUpdated = scenarioState.lastUpdated ∧
    (runScript fetchFailEnv scenarioState).state.updatesLog = scenarioState.updatesLog ∧
    (Event.wroteCheckpoint ∈ (runScript fetchFailEnv scenarioState).events →
      Event.savedDataset ∈ (runScript fetchFailEnv scenarioState).events) ∧
    (Event.wroteLog ∈ (runScript fetchFailEnv scenarioState).events →
      Event.savedDataset ∈ (runScript fetchFailEnv scenarioState).events) :=
  abort_leaves_checkpoint_and_log_unchanged fetchFailEnv scenarioState
    (Or.inr (Or.inr (Or.inl (by decide))))

/-- C6: in a non-empty update run where either model's prediction count
differs from the number of filtered filenames, the job fails on the length
asserts and performs no persistence: dataset, checkpoint and log are
unchanged on disk. -/
theorem prediction_count_mismatch_aborts_without_persistence {P Q : Type}
    (env : Env P Q) (st : FileState P Q) (metadata : List MetaRecord)
    (hargv : env.argv.length = 2) (hfetch : env.fetch = some metadata)
    (hne : newImagesOf env st ≠ [])
    (hmm : (env.stageModel (newImagesOf env st)).length ≠ (newImagesOf env st).length ∨
      (env.locationsModel (newImagesOf env st)).length ≠ (newImagesOf env st).length) :
    (runScript env st).outcome = Outcome.errAssert ∧
    (runScript env st).state.dataset = st.dataset ∧
    (runScript env st).state.lastUpdated = st.lastUpdated ∧
    (runScript env st).state.updatesLog = st.updatesLog := by
  have hmeta : filterNewImages metadata st.dataset.filenames
      (env.argv.getD 1 "") env.disk = newImagesOf env st := by
    simp [newImagesOf, fetchedMetadataOf, hfetch]
  have hpos : 0 < (newImagesOf env st).length := List.length_pos.mpr hne
  have hout : (runScript env st).outcome = Outcome.errAssert := by
    simp only [runScript, runNonEmptyBranch, hfetch, hargv, reduceIte]
    rw [if_neg (show ¬ (2 : Nat) = 1 by omega), hmeta, if_pos hpos]
    rcases hmm with hsp | hlp
    · rw [if_neg (show ¬ (newImagesOf env st).length =
        (env.stageModel (newImagesOf env st)).length from fun hh => hsp hh.symm)]
    · by_cases hsp : (newImagesOf env st).length =
        (env.stageModel (newImagesOf env st)).length
      · rw [if_pos hsp, if_neg (show ¬ (env.stageModel (newImagesOf env st)).length =
          (env.locationsModel (newImagesOf env st)).length from
            fun hh => hlp (hh.symm.trans hsp.symm))]
      · rw [if_neg hsp]
  have hno : ∀ n, (runScript env st).outcome ≠ Outcome.updated n := by
    intro n hn
    rw [hout] at hn
    cases hn
  obtain ⟨h1, h2, h3⟩ := runScript_not_updated_spec env st hno
  exact ⟨hout, h1, h2, h3⟩

/-- C6 witness: a stage model returning no predictions for the one filtered
image makes the scenario run abort on the asserts with nothing persisted. -/
theorem prediction_count_mismatch_aborts_without_persistence_witness :
    (runScript mismatchEnv scenarioState).outcome = Outcome.errAssert ∧
    (runScript mismatchEnv scenarioState).state.dataset = scenarioState.dataset ∧
    (runScript mismatchEnv scenarioState).state.lastUpdated = scenarioState.lastUpdated ∧
    (runScript mismatchEnv scenarioState).state.updatesLog = scenarioState.updatesLog :=
  prediction_count_mismatch_aborts_without_persistence mismatchEnv scenarioState
    scenarioMetadata (by decide) (by decide) (by decide) (Or.inl (by decide))

/-- C7: after a successful non-empty update the checkpoint file contains the
run's execution date, and after an empty-update run the checkpoint file is
unchanged. -/
theorem checkpoint_advances_only_on_nonempty_update {P Q : Type} (env : Env P Q)
    (st : FileState P Q) :
    (∀ n, (runScript env st).outcome = Outcome.updated n →
      (runScript env st).state.lastUpdated = env.today) ∧
    (newImagesOf env st = [] →
      (runScript env st).state.lastUpdated = st.lastUpdated) := by
  constructor
  · intro n hn
    exact (runScript_updated_spec env st n hn).2.2.2.2.1
  · intro h
    exact (runScript_empty_filter_spec env st h).2.1

/-- C7 witness: the scenario run sets the checkpoint to the run date, and the
empty-fetch run leaves it unchanged. -/
theorem checkpoint_advances_only_on_nonempty_update_witness :
    (runScript scenarioEnv scenarioState).state.lastUpdated = scenarioEnv.today ∧
    (runScript emptyFetchEnv scenarioState).state.lastUpdated = scenarioState.lastUpdated :=
  ⟨(checkpoint_advances_only_on_nonempty_update scenarioEnv scenarioState).1 1 (by decide),
   (checkpoint_advances_only_on_nonempty_update emptyFetchEnv scenarioState).2 (by decide)⟩

/-- C8 counterexample: extra positional arguments are not silently ignored.
With an extra argument after the image directory the run aborts with
`NameError` (`image_home_dir` is never assigned, because the source only
assigns it under `len(sys.argv) == 2`), while the identical run without the
extra argument completes a one-image update. -/
theorem extra_args_not_ignored_counterexample :
    (runScript extraArgsEnv scenarioState).outcome = Outcome.errNameError ∧
    (runScript scenarioEnv scenarioState).outcome = Outcome.updated 1 :=
  ⟨by decide, by decide⟩

/-- C8 (amended): with more than one positional argument the image home
directory is never bound, so the run aborts with `NameError` in the filter
loop as soon as the fetched filename list is non-empty, and reaches the
up-to-date exit only when it is empty; in both cases the persisted dataset,
checkpoint and log are unchanged. -/
theorem extra_args_leave_dir_unbound {P Q : Type} (env : Env P Q)
    (st : FileState P Q) (metadata : List MetaRecord)
    (hargv : 3 ≤ env.argv.length) (hfetch : env.fetch = some metadata) :
    (newImageFnames metadata ≠ [] →
      (runScript env st).outcome = Outcome.errNameError) ∧
    (newImageFnames metadata = [] →
      (runScript env st).outcome = Outcome.upToDate) ∧
    (runScript env st).state.dataset = st.dataset ∧
    (runScript env st).state.lastUpdated = st.lastUpdated ∧
    (runScript env st).state.updatesLog = st.updatesLog := by
  simp only [runScript, runNonEmptyBranch]
  split
  · next h1 => omega
  · split
    · next h2 => rw [hfetch] at h2; cases h2
    · next metadata' heq =>
      rw [hfetch] at heq
      injection heq with hm
      subst hm
      split
      · next h2 => omega
      · split
        · next hie =>
          refine ⟨fun hne => absurd (List.isEmpty_iff.mp hie) hne,
            fun _ => rfl, rfl, rfl, rfl⟩
        · next hie =>
          refine ⟨fun _ => rfl, fun hnil => ?_, rfl, rfl, rfl⟩
          rw [hnil] at hie
          simp at hie

/-- C8 (amended) witness: the scenario run with one extra argument aborts
with `NameError` and persists nothing. -/
theorem extra_args_leave_dir_unbound_witness :
    (runScript extraArgsEnv scenarioState).outcome = Outcome.errNameError ∧
    (runScript extraArgsEnv scenarioState).state.dataset = scenarioState.dataset ∧
    (runScript extraArgsEnv scenarioState).state.lastUpdated = scenarioState.lastUpdated ∧
    (runScript extraArgsEnv scenarioState).state.updatesLog = scenarioState.updatesLog :=
  ⟨(extra_args_leave_dir_unbound extraArgsEnv scenarioState scenarioMetadata
      (by decide) (by decide)).1 (by decide),
   (extra_args_leave_dir_unbound extraArgsEnv scenarioState scenarioMetadata
      (by decide) (by decide)).2.2.1,
   (extra_args_leave_dir_unbound extraArgsEnv scenarioState scenarioMetadata
      (by decide) (by decide)).2.2.2.1,
   (extra_args_leave_dir_unbound extraArgsEnv scenarioState scenarioMetadata
      (by decide) (by decide)).2.2.2.2⟩

/-- C9 counterexample: a run with empty fetched metadata does take the
up-to-date path, but it is not true that no files are modified: starting
from a state with no `temporary-downloads/new_images.csv`, the run creates
that file (the `urlretrieve` download happens before the branch). -/
theorem empty_metadata_writes_download_file :
    (runScript emptyFetchEnv scenarioState).outcome = Outcome.upToDate ∧
    scenarioState.tempCsv = none ∧
    (runScript emptyFetchEnv scenarioState).state.tempCsv = some [] :=
  ⟨by decide, rfl, by decide⟩

/-- C9 (amended): when the fetched metadata contains no records the run takes
the up-to-date path and the persisted dataset, checkpoint and update log are
unchanged; only the temporary download file (and the temporary-downloads
directory) are touched. -/
theorem empty_metadata_up_to_date_persisted_unchanged {P Q : Type}
    (env : Env P Q) (st : FileState P Q) (metadata : List MetaRecord)
    (hargv : env.argv.length ≠ 1) (hfetch : env.fetch = some metadata)
    (hempty : newImageFnames metadata = []) :
    (runScript env st).outcome = Outcome.upToDate ∧
    (runScript env st).state.dataset = st.dataset ∧
    (runScript env st).state.lastUpdated = st.lastUpdated ∧
    (runScript env st).state.updatesLog = st.updatesLog ∧
    (runScript env st).state.tempCsv = some metadata ∧
    (runScript env st).state.tempDirExists = true := by
  simp only [runScript, runNonEmptyBranch]
  split
  · next h1 => exact absurd h1 hargv
  · split
    · next h2 => rw [hfetch] at h2; cases h2
    · next metadata' heq =>
      rw [hfetch] at heq
      injection heq with hm
      subst hm
      split
      · split
        · next h0 =>
          rw [filterNewImages_eq_nil hempty] at h0
          simp at h0
        · exact ⟨rfl, rfl, rfl, rfl, rfl, rfl⟩
      · split
        · exact ⟨rfl, rfl, rfl, rfl, rfl, rfl⟩
        · next hie =>
          rw [hempty] at hie
          simp at hie

/-- C9 (amended) witness: the empty-fetch run ends up to date with dataset,
checkpoint and log unchanged and the download file rewritten. -/
theorem empty_metadata_up_to_date_persisted_unchanged_witness :
    (runScript emptyFetchEnv scenarioState).outcome = Outcome.upToDate ∧
    (runScript emptyFetchEnv scenarioState).state.dataset = scenarioState.dataset ∧
    (runScript emptyFetchEnv scenarioState).state.lastUpdated = scenarioState.lastUpdated ∧
    (runScript emptyFetchEnv scenarioState).state.updatesLog = scenarioState.updatesLog ∧
    (runScript emptyFetchEnv scenarioState).state.tempCsv = some [] ∧
    (runScript emptyFetchEnv scenarioState).state.tempDirExists = true :=
  empty_metadata_up_to_date_persisted_unchanged emptyFetchEnv scenarioState []
    (by decide) (by decide) (by decide)

/-- C10: the filtered new-image list contains each filename at most once
(duplicate fetched records collapse), is sorted in ascending code-point
order, and does not depend on the order of the fetched metadata. -/
theorem filtered_list_nodup_sorted_order_independent
    (metadata metadata' : List MetaRecord) (dbFilenames : List String)
    (imageHomeDir : String) (disk : List String)
    (hperm : metadata.Perm metadata') :
    (filterNewImages metadata dbFilenames imageHomeDir disk).Nodup ∧
    List.Sorted strLe (filterNewImages metadata dbFilenames imageHomeDir disk) ∧
    filterNewImages metadata dbFilenames imageHomeDir disk =
      filterNewImages metadata' dbFilenames imageHomeDir disk := by
  have n1 : (filterNewImages metadata dbFilenames imageHomeDir disk).Nodup :=
    setdiff1d_nodup _ _
  have n2 : (filterNewImages metadata' dbFilenames imageHomeDir disk).Nodup :=
    setdiff1d_nodup _ _
  have s1 : List.Sorted strLe (filterNewImages metadata dbFilenames imageHomeDir disk) :=
    setdiff1d_sorted _ _
  have s2 : List.Sorted strLe (filterNewImages metadata' dbFilenames imageHomeDir disk) :=
    setdiff1d_sorted _ _
  refine ⟨n1, s1, List.eq_of_perm_of_sorted ?_ s1 s2⟩
  rw [List.perm_ext_iff_of_nodup n1 n2]
  intro a
  rw [mem_filterNewImages, mem_filterNewImages]
  have hmm : a ∈ newImageFnames metadata ↔ a ∈ newImageFnames metadata' :=
    (hperm.map MetaRecord.fname).mem_iff
  tauto

/-- C10 witness: metadata with a duplicated `c.jpg` row, in two different
orders, filters to the same duplicate-free sorted list. -/
theorem filtered_list_nodup_sorted_order_independent_witness :
    (filterNewImages dupMetadata ["a.jpg", "b.jpg"] "/images/"
      ["/images/c.jpg", "/images/d.jpg"]).Nodup ∧
    List.Sorted strLe (filterNewImages dupMetadata ["a.jpg", "b.jpg"] "/images/"
      ["/images/c.jpg", "/images/d.jpg"]) ∧
    filterNewImages dupMetadata ["a.jpg", "b.jpg"] "/images/"
        ["/images/c.jpg", "/images/d.jpg"] =
      filterNewImages dupMetadataShuffled ["a.jpg", "b.jpg"] "/images/"
        ["/images/c.jpg", "/images/d.jpg"] :=
  filtered_list_nodup_sorted_order_independent dupMetadata dupMetadataShuffled
    ["a.jpg", "b.jpg"] "/images/" ["/images/c.jpg", "/images/d.jpg"] (by decide)

end GeishaUpdate
